import Mathlib

/-!
Shallow embedding of the learning-management-system backend
(src/auth.py, src/routes.py, src/schemas.py, src/models.py) in Lean 4.

Modelling conventions:
* A MongoDB ObjectId is modelled as a `String` (`OID`); `ObjectId.is_valid`
  becomes `objectIdIsValid` (24 hex characters, the canonical form).
* Each collection is a `List` of typed records kept in insertion order;
  `find_one(f)` is `List.find?`, `find(f)` is `List.filter` (which preserves
  insertion order, matching MongoDB natural order on these collections),
  `count_documents(f)` is `(·.filter f).length`, and `insert_one` appends.
* `datetime.utcnow()` is passed in as an abstract `now : Nat` parameter.
* Route handlers become pure functions returning
  `Except HTTPException out × Db`: an `HTTPException` raised before any
  `insert_one` leaves the returned `Db` unchanged, exactly as in the code.
* Floating-point arithmetic in `get_course_progress` is modelled over `Rat`
  (the claims about it are structural, not about rounding).
-/

abbrev OID := String

def isHexChar (c : Char) : Bool :=
  c.isDigit || (Char.ofNat 97 ≤ c && c ≤ Char.ofNat 102) ||
    (Char.ofNat 65 ≤ c && c ≤ Char.ofNat 70)

/-- bson `ObjectId.is_valid` / the `ObjectId(s)` constructor succeeding:
a 24-character hexadecimal string (the canonical text form). -/
def objectIdIsValid (s : String) : Bool :=
  s.length == 24 && s.toList.all isHexChar

/-- fastapi `HTTPException(status_code, detail)`. -/
structure HTTPException where
  status_code : Nat
  detail : String
deriving Repr, DecidableEq

/-- User record (src/models.py `User`), `id` the stored `_id`. -/
structure UserRec where
  id : OID
  username : String
  hashed_password : String
  is_admin : Bool
deriving Repr, DecidableEq

/-- Course record (src/models.py `Course`); `created_by` is `none` when the
stored document lacks the field or holds null (legacy data, handled
identically at src/routes.py line 34). -/
structure CourseRec where
  id : OID
  title : String
  instructor : String
  price : Rat
  created_by : Option OID
deriving Repr, DecidableEq

/-- Enrollment record (src/models.py `Enrollment`). -/
structure EnrollmentRec where
  user_id : OID
  course_id : OID
deriving Repr, DecidableEq

/-- Lesson record (src/models.py `Lesson`). -/
structure LessonRec where
  id : OID
  title : String
  course_id : OID
deriving Repr, DecidableEq

/-- Quiz record (src/models.py `Quiz`). -/
structure QuizRec where
  id : OID
  title : String
  course_id : OID
deriving Repr, DecidableEq

/-- Question record (src/models.py `Question`). -/
structure QuestionRec where
  id : OID
  text : String
  options : List String
  correct_answer : Int
  quiz_id : OID
deriving Repr, DecidableEq

/-- Lesson-completion record (src/models.py `LessonCompletion`). -/
structure CompletionRec where
  user_id : OID
  lesson_id : OID
  timestamp : Nat
deriving Repr, DecidableEq

/-- Quiz-attempt record (src/models.py `QuizAttempt`). -/
structure AttemptRec where
  user_id : OID
  quiz_id : OID
  answers : List Int
  score : Nat
  timestamp : Nat
deriving Repr, DecidableEq

/-- The document store: one list per collection (src/database.py), in
insertion order. -/
structure Db where
  users : List UserRec
  courses : List CourseRec
  enrollments : List EnrollmentRec
  lessons : List LessonRec
  quizzes : List QuizRec
  questions : List QuestionRec
  lesson_completions : List CompletionRec
  quiz_attempts : List AttemptRec
deriving Repr, DecidableEq

/-- The scoring loop of `attempt_quiz` (src/routes.py lines 377-380):
`score = 0; for i, q in enumerate(questions): if i < len(answers) and
answers[i] == q.correct_answer: score += 1`, with `i` the running index. -/
def quizScoreAux (answers : List Int) : Nat → List QuestionRec → Nat
  | _, [] => 0
  | i, q :: qs =>
    (if i < answers.length ∧ answers.getD i 0 = q.correct_answer then 1 else 0) +
      quizScoreAux answers (i + 1) qs

def quizScore (questions : List QuestionRec) (answers : List Int) : Nat :=
  quizScoreAux answers 0 questions

/-- src/routes.py `attempt_quiz` (lines 362-393). The quiz lookup, the
question fetch in insertion order, the answer-count check (raised before any
insert), the scoring loop and the append of the attempt record. -/
def attempt_quiz (db : Db) (quiz_id : OID) (answers : List Int)
    (current_user : UserRec) (now : Nat) : Except HTTPException AttemptRec × Db :=
  match db.quizzes.find? (fun q => q.id == quiz_id) with
  | none => (.error ⟨404, "Quiz not found"⟩, db)
  | some _ =>
    let questions := db.questions.filter (fun q => q.quiz_id == quiz_id)
    if answers.length ≠ questions.length then
      (.error ⟨400, "Number of answers does not match number of questions"⟩, db)
    else
      let att : AttemptRec :=
        ⟨current_user.id, quiz_id, answers, quizScore questions answers, now⟩
      (.ok att, { db with quiz_attempts := db.quiz_attempts ++ [att] })

/-- The specification's scoring formula: the count of positions `i` at which
`submittedAnswers[i] == questions[i].correct_answer`, expressed by pairing
questions with answers positionally. -/
def countMatches (questions : List QuestionRec) (answers : List Int) : Nat :=
  ((questions.zip answers).filter (fun p => p.1.correct_answer == p.2)).length

theorem quizScoreAux_le (answers : List Int) (i : Nat) (qs : List QuestionRec) :
    quizScoreAux answers i qs ≤ qs.length := by
  induction qs generalizing i with
  | nil => simp [quizScoreAux]
  | cons q qs ih =>
    simp only [quizScoreAux, List.length_cons]
    have h := ih (i + 1)
    split <;> omega

theorem quizScoreAux_eq_countMatches (qs : List QuestionRec) :
    ∀ (answers : List Int) (i : Nat), qs.length + i = answers.length →
      quizScoreAux answers i qs =
        ((qs.zip (answers.drop i)).filter (fun p => p.1.correct_answer == p.2)).length := by
  induction qs with
  | nil => intro answers i _; simp [quizScoreAux]
  | cons q qs ih =>
    intro answers i hlen
    have hi : i < answers.length := by simp at hlen; omega
    have hdrop : answers.drop i = answers[i] :: answers.drop (i + 1) :=
      List.drop_eq_getElem_cons hi
    have hgetD : answers.getD i 0 = answers[i] := List.getD_eq_getElem answers 0 hi
    rw [hdrop]
    simp only [quizScoreAux, List.zip_cons_cons, List.filter_cons]
    have hrec := ih answers (i + 1) (by simp at hlen ⊢; omega)
    by_cases hm : q.correct_answer = answers[i]
    · have : (i < answers.length ∧ answers.getD i 0 = q.correct_answer) := by
        constructor
        · exact hi
        · rw [hgetD, hm]
      rw [if_pos this, hrec]
      simp [hm]
      omega
    · have : ¬ (i < answers.length ∧ answers.getD i 0 = q.correct_answer) := by
        intro hc
        exact hm (by rw [← hc.2, hgetD])
      rw [if_neg this, hrec]
      simp [hm]

theorem quizScore_eq_countMatches (questions : List QuestionRec)
    (answers : List Int) (h : answers.length = questions.length) :
    quizScore questions answers = countMatches questions answers := by
  unfold quizScore countMatches
  have := quizScoreAux_eq_countMatches questions answers 0 (by omega)
  simpa using this

/-- C1: with an existing quiz, an answer-count mismatch yields the 400
validation error and leaves the store unchanged (no attempt inserted);
otherwise the call appends exactly one attempt whose score is the count of
positions where the submitted answer equals the question's correct answer
(questions in insertion order), a value determined by (questions, answers)
and bounded by the number of questions. -/
theorem attempt_quiz_grading (db : Db) (quiz_id : OID) (answers : List Int)
    (u : UserRec) (now : Nat)
    (hquiz : (db.quizzes.find? (fun q => q.id == quiz_id)).isSome = true) :
    (answers.length ≠ (db.questions.filter (fun q => q.quiz_id == quiz_id)).length →
       attempt_quiz db quiz_id answers u now =
         (.error ⟨400, "Number of answers does not match number of questions"⟩, db)) ∧
    (answers.length = (db.questions.filter (fun q => q.quiz_id == quiz_id)).length →
       ∃ att : AttemptRec,
         attempt_quiz db quiz_id answers u now =
           (.ok att, { db with quiz_attempts := db.quiz_attempts ++ [att] }) ∧
         att.score = countMatches (db.questions.filter (fun q => q.quiz_id == quiz_id)) answers ∧
         att.score ≤ (db.questions.filter (fun q => q.quiz_id == quiz_id)).length) := by
  obtain ⟨qz, hqz⟩ := Option.isSome_iff_exists.mp hquiz
  constructor
  · intro hne
    unfold attempt_quiz
    rw [hqz]
    simp only [if_pos hne]
  · intro heq
    refine ⟨⟨u.id, quiz_id,
      answers, quizScore (db.questions.filter (fun q => q.quiz_id == quiz_id)) answers, now⟩,
      ?_, ?_, ?_⟩
    · unfold attempt_quiz
      rw [hqz]
      simp only [if_neg (not_not_intro heq)]
    · exact quizScore_eq_countMatches _ _ heq
    · exact quizScoreAux_le _ _ _

def exUserC1 : UserRec := ⟨"u1", "alice", "h", false⟩

def exDbC1 : Db where
  users := [exUserC1]
  courses := [⟨"c1", "Course", "Bob", 10, some "u1"⟩]
  enrollments := []
  lessons := []
  quizzes := [⟨"q1", "Quiz", "c1"⟩]
  questions := [⟨"qn1", "Q one", ["a", "b"], 1, "q1"⟩, ⟨"qn2", "Q two", ["a", "b", "c"], 2, "q1"⟩]
  lesson_completions := []
  quiz_attempts := []

theorem attempt_quiz_grading_witness :
    ∃ att : AttemptRec,
      attempt_quiz exDbC1 "q1" [1, 0] exUserC1 7 =
        (.ok att, { exDbC1 with quiz_attempts := exDbC1.quiz_attempts ++ [att] }) ∧
      att.score = countMatches (exDbC1.questions.filter (fun q => q.quiz_id == "q1")) [1, 0] ∧
      att.score ≤ (exDbC1.questions.filter (fun q => q.quiz_id == "q1")).length :=
  (attempt_quiz_grading exDbC1 "q1" [1, 0] exUserC1 7 (by decide)).2 (by decide)

/-- The shape returned by `paginate_collection` (src/routes.py lines 69-77,
src/schemas.py `PaginatedResponse`). The retrieved page is
`find(query).skip((page-1)*size).limit(size)` over the filtered records. -/
structure PaginatedResult (α : Type) where
  items : List α
  total : Nat
  page : Nat
  size : Nat
  pages : Nat
  has_next : Bool
  has_prev : Bool
deriving Repr, DecidableEq

/-- src/routes.py `paginate_collection` (lines 46-77), generic over the
already-filtered record list (the caller supplies the query; filtering does
not change the arithmetic). `skip = (page-1)*size`, `total` the count,
`pages = (total + size - 1) // size`, `has_next = page < pages`,
`has_prev = page > 1`. -/
def paginate_collection {α : Type} (records : List α) (page : Nat) (size : Nat) :
    PaginatedResult α :=
  let skip := (page - 1) * size
  let total := records.length
  let items := (records.drop skip).take size
  let pages := (total + size - 1) / size
  { items := items, total := total, page := page, size := size, pages := pages,
    has_next := decide (page < pages), has_prev := decide (page > 1) }

/-- Mathematical ceiling of `total / size` on naturals, written independently
of the code's `(total + size - 1) // size` trick. -/
def ceilFrac (total size : Nat) : Nat :=
  if total % size = 0 then total / size else total / size + 1

theorem add_pred_div_eq_ceilFrac (total size : Nat) (h : 1 ≤ size) :
    (total + size - 1) / size = ceilFrac total size := by
  unfold ceilFrac
  have hpos : 0 < size := h
  have hqr : size * (total / size) + total % size = total := Nat.div_add_mod total size
  have hr : total % size < size := Nat.mod_lt total hpos
  set q := total / size with hq
  set r := total % size with hrdef
  by_cases h0 : r = 0
  · rw [if_pos h0]
    have h1 : total + size - 1 = size * q + (size - 1) := by omega
    rw [h1, Nat.mul_add_div hpos, Nat.div_eq_of_lt (by omega)]
    omega
  · rw [if_neg h0]
    have hm : size * (q + 1) = size * q + size := Nat.mul_succ size q
    have h1 : total + size - 1 = size * (q + 1) + (r - 1) := by omega
    rw [h1, Nat.mul_add_div hpos, Nat.div_eq_of_lt (by omega)]

/-- C3 counterexample: on an empty collection requested at page 2, the code
reports `total = 0` yet `has_prev = true` (it is `page > 1` regardless of
`total`), contradicting the claim that `total == 0` forces `has_prev`
false. -/
theorem paginate_total_zero_counterexample :
    (paginate_collection ([] : List Nat) 2 10).total = 0 ∧
    (paginate_collection ([] : List Nat) 2 10).has_prev = true := by
  constructor <;> rfl

/-- C3 amended: for `page ≥ 1` and `size ∈ [1,100]`, pagination returns
`pages = ceil(total/size)` (no division error even at `total = 0`),
`has_next = page < pages`, `has_prev = page > 1`, and the items are the
window skipping `(page-1)*size` records; when `total = 0` it returns
`pages = 0` with `has_next = false`, while `has_prev` is false exactly when
`page = 1` (not for every page, as the original claim said). -/
theorem paginate_collection_spec {α : Type} (records : List α) (page : Nat)
    (size : Nat) (hp : 1 ≤ page) (hs : 1 ≤ size) (hs100 : size ≤ 100) :
    (paginate_collection records page size).pages = ceilFrac records.length size ∧
    (paginate_collection records page size).has_next =
      decide (page < (paginate_collection records page size).pages) ∧
    (paginate_collection records page size).has_prev = decide (1 < page) ∧
    (paginate_collection records page size).items =
      (records.drop ((page - 1) * size)).take size ∧
    (records.length = 0 →
      (paginate_collection records page size).pages = 0 ∧
      (paginate_collection records page size).has_next = false ∧
      ((paginate_collection records page size).has_prev = false ↔ page = 1)) := by
  refine ⟨add_pred_div_eq_ceilFrac records.length size hs, rfl, rfl, rfl, ?_⟩
  intro h0
  have hpages : (paginate_collection records page size).pages = 0 := by
    show (records.length + size - 1) / size = 0
    rw [h0]
    exact Nat.div_eq_of_lt (by omega)
  refine ⟨hpages, ?_, ?_⟩
  · show decide (page < (records.length + size - 1) / size) = false
    have : (records.length + size - 1) / size = 0 := hpages
    rw [this]
    simp
  · show decide (1 < page) = false ↔ page = 1
    constructor
    · intro hd
      have := of_decide_eq_false hd
      omega
    · intro hd
      subst hd
      rfl

theorem paginate_collection_spec_witness :
    (paginate_collection ([5, 6, 7] : List Nat) 2 2).pages = ceilFrac (([5, 6, 7] : List Nat)).length 2 ∧
    (paginate_collection ([5, 6, 7] : List Nat) 2 2).has_next =
      decide (2 < (paginate_collection ([5, 6, 7] : List Nat) 2 2).pages) ∧
    (paginate_collection ([5, 6, 7] : List Nat) 2 2).has_prev = decide (1 < 2) ∧
    (paginate_collection ([5, 6, 7] : List Nat) 2 2).items =
      ((([5, 6, 7] : List Nat)).drop ((2 - 1) * 2)).take 2 ∧
    ((([5, 6, 7] : List Nat)).length = 0 →
      (paginate_collection ([5, 6, 7] : List Nat) 2 2).pages = 0 ∧
      (paginate_collection ([5, 6, 7] : List Nat) 2 2).has_next = false ∧
      ((paginate_collection ([5, 6, 7] : List Nat) 2 2).has_prev = false ↔ 2 = 1)) :=
  paginate_collection_spec [5, 6, 7] 2 2 (by decide) (by decide) (by decide)

/-- Deterministic stand-in for `get_password_hash` (src/auth.py line 36,
passlib bcrypt with 12 rounds); the hash value itself is irrelevant to every
claim proved here, only that a string is stored. -/
def get_password_hash (password : String) : String :=
  String.append "$2b$12$" password

/-- Signup request body (src/schemas.py `UserCreate`): `admin` defaults to
false when omitted; a null value behaves as false in `is_first_user or
user.admin`, so `Bool` is faithful. -/
structure UserCreate where
  username : String
  password : String
  admin : Bool
deriving Repr, DecidableEq

/-- src/routes.py `signup` (lines 80-103): duplicate-username check, first
user count, `is_admin = is_first_user or user.admin`, then insert. The
handler has no authentication dependency, so the request body alone decides
the admin flag. `freshId` models the store-assigned `_id`. -/
def signup (db : Db) (req : UserCreate) (freshId : OID) :
    Except HTTPException UserRec × Db :=
  match db.users.find? (fun u => u.username == req.username) with
  | some _ => (.error ⟨400, "Username already registered"⟩, db)
  | none =>
    let is_first_user := db.users.length == 0
    let is_admin := is_first_user || req.admin
    let u : UserRec := ⟨freshId, req.username, get_password_hash req.password, is_admin⟩
    (.ok u, { db with users := db.users ++ [u] })

/-- Abstract view of a presented bearer token for src/auth.py
`get_current_user`: whether its signature verifies under the server secret,
whether its `exp` claim has passed, and its `sub` claim. `jose.jwt.decode`
raises `JWTError` exactly when the signature fails or the token is expired
(`ExpiredSignatureError` is a `JWTError`). -/
structure BearerToken where
  sigValid : Bool
  expired : Bool
  sub : Option String
deriving Repr, DecidableEq

/-- The `jwt.decode(credentials, SECRET_KEY, algorithms=[ALGORITHM])` call in
src/auth.py line 74, returning the payload or a `JWTError`. -/
def jwtDecode (t : BearerToken) : Except Unit (Option String) :=
  if t.sigValid && !t.expired then .ok t.sub else .error ()

/-- The single `credentials_exception` of src/auth.py lines 68-72, raised on
every failure path of `get_current_user`. -/
def credentials_exception : HTTPException :=
  ⟨401, "Could not validate credentials"⟩

/-- src/auth.py `get_current_user` (lines 67-83): decode the token (any
`JWTError` collapses to `credentials_exception`), reject an absent `sub`
claim, then resolve the username against the user store
(`get_user_by_username`, line 52) and reject an unknown one — all with the
same exception. -/
def get_current_user (db : Db) (t : BearerToken) : Except HTTPException UserRec :=
  match jwtDecode t with
  | .error _ => .error credentials_exception
  | .ok subClaim =>
    match subClaim with
    | none => .error credentials_exception
    | some username =>
      match db.users.find? (fun u => u.username == username) with
      | none => .error credentials_exception
      | some u => .ok u

/-- Progress summary (src/schemas.py `CourseProgressOut`), percentage over
`Rat`. -/
structure CourseProgressOut where
  lessons_completed : Nat
  total_lessons : Nat
  quizzes_attempted : Nat
  total_quizzes : Nat
  percent_completed : Rat
deriving Repr, DecidableEq

/-- src/routes.py `get_course_progress` (lines 429-467): lesson and quiz
totals by course reference, completed/attempted counts by `user_id` plus
`$in` the course's lesson/quiz id lists (a count of records, not of distinct
ids), and the percentage guard for `total_lessons == 0`. -/
def get_course_progress (db : Db) (course_id : OID) (u : UserRec) :
    CourseProgressOut :=
  let total_lessons := (db.lessons.filter (fun l => l.course_id == course_id)).length
  let lesson_ids := (db.lessons.filter (fun l => l.course_id == course_id)).map (fun l => l.id)
  let lessons_completed := (db.lesson_completions.filter
      (fun c => c.user_id == u.id && lesson_ids.contains c.lesson_id)).length
  let total_quizzes := (db.quizzes.filter (fun q => q.course_id == course_id)).length
  let quiz_ids := (db.quizzes.filter (fun q => q.course_id == course_id)).map (fun q => q.id)
  let quizzes_attempted := (db.quiz_attempts.filter
      (fun a => a.user_id == u.id && quiz_ids.contains a.quiz_id)).length
  let percent_completed : Rat :=
    if total_lessons > 0 then ((lessons_completed : Rat) / (total_lessons : Rat)) * 100 else 0
  { lessons_completed := lessons_completed, total_lessons := total_lessons,
    quizzes_attempted := quizzes_attempted, total_quizzes := total_quizzes,
    percent_completed := percent_completed }

/-- C5: every failure cause of bearer-token validation — bad signature,
passed expiry, absent `sub` claim, or a subject that maps to no stored
user — produces the one fixed `credentials_exception` (401), so the caller
cannot tell which sub-check failed. -/
theorem get_current_user_single_failure (db : Db) (t : BearerToken) :
    (t.sigValid = false → get_current_user db t = .error credentials_exception) ∧
    (t.expired = true → get_current_user db t = .error credentials_exception) ∧
    (t.sub = none → get_current_user db t = .error credentials_exception) ∧
    (∀ name : String, t.sub = some name →
      db.users.find? (fun u => u.username == name) = none →
      get_current_user db t = .error credentials_exception) := by
  refine ⟨?_, ?_, ?_, ?_⟩
  · intro h
    simp [get_current_user, jwtDecode, h]
  · intro h
    simp [get_current_user, jwtDecode, h]
  · intro h
    by_cases hc : (t.sigValid && !t.expired) = true
    · simp [get_current_user, jwtDecode, hc, h]
    · simp [get_current_user, jwtDecode, hc]
  · intro name hsub hfind
    by_cases hc : (t.sigValid && !t.expired) = true
    · simp [get_current_user, jwtDecode, hc, hsub, hfind]
    · simp [get_current_user, jwtDecode, hc]

def exDbC5 : Db := ⟨[⟨"u9", "carol", "h", false⟩], [], [], [], [], [], [], []⟩

theorem get_current_user_single_failure_witness :
    get_current_user exDbC5 ⟨false, false, some "carol"⟩ = .error credentials_exception :=
  (get_current_user_single_failure exDbC5 ⟨false, false, some "carol"⟩).1 rfl

/-- C6: the progress percentage is 0 when the course has no lessons and
`lessons_completed / total_lessons * 100` otherwise; it is invariant under
arbitrary changes to the quiz and quiz-attempt collections (quizzes never
factor into it). -/
theorem get_course_progress_percent (db db' : Db) (course_id : OID) (u : UserRec)
    (hl : db'.lessons = db.lessons)
    (hc : db'.lesson_completions = db.lesson_completions) :
    ((get_course_progress db course_id u).total_lessons = 0 →
      (get_course_progress db course_id u).percent_completed = 0) ∧
    ((get_course_progress db course_id u).total_lessons ≠ 0 →
      (get_course_progress db course_id u).percent_completed =
        ((get_course_progress db course_id u).lessons_completed : Rat) /
          ((get_course_progress db course_id u).total_lessons : Rat) * 100) ∧
    (get_course_progress db' course_id u).percent_completed =
      (get_course_progress db course_id u).percent_completed := by
  refine ⟨?_, ?_, ?_⟩
  · intro h0
    simp only [get_course_progress] at h0 ⊢
    rw [h0]
    simp
  · intro h0
    simp only [get_course_progress] at h0 ⊢
    rw [if_pos (Nat.pos_of_ne_zero h0)]
  · simp only [get_course_progress, hl, hc]

def exUserC6 : UserRec := ⟨"u1", "alice", "h", false⟩

def exDbC6 : Db where
  users := [exUserC6]
  courses := [⟨"c1", "Course", "Bob", 10, some "u1"⟩]
  enrollments := []
  lessons := [⟨"l1", "L1", "c1"⟩, ⟨"l2", "L2", "c1"⟩]
  quizzes := [⟨"q1", "Quiz", "c1"⟩]
  questions := []
  lesson_completions := [⟨"u1", "l1", 3⟩]
  quiz_attempts := []

def exDbC6' : Db := { exDbC6 with quizzes := [], quiz_attempts := [⟨"u1", "q1", [0], 1, 4⟩] }

theorem get_course_progress_percent_witness :
    ((get_course_progress exDbC6 "c1" exUserC6).total_lessons = 0 →
      (get_course_progress exDbC6 "c1" exUserC6).percent_completed = 0) ∧
    ((get_course_progress exDbC6 "c1" exUserC6).total_lessons ≠ 0 →
      (get_course_progress exDbC6 "c1" exUserC6).percent_completed =
        ((get_course_progress exDbC6 "c1" exUserC6).lessons_completed : Rat) /
          ((get_course_progress exDbC6 "c1" exUserC6).total_lessons : Rat) * 100) ∧
    (get_course_progress exDbC6' "c1" exUserC6).percent_completed =
      (get_course_progress exDbC6 "c1" exUserC6).percent_completed :=
  get_course_progress_percent exDbC6 exDbC6' "c1" exUserC6 rfl rfl

/-- C8: a signup against an empty user store creates a user with
`is_admin = true` whatever the requested admin flag (`is_admin =
is_first_user or user.admin` with `user_count == 0`). -/
theorem signup_first_user_forced_admin (db : Db) (req : UserCreate) (freshId : OID)
    (hempty : db.users = []) :
    ∃ u : UserRec, (signup db req freshId).1 = .ok u ∧ u.is_admin = true := by
  refine ⟨⟨freshId, req.username, get_password_hash req.password, true⟩, ?_, rfl⟩
  unfold signup
  rw [hempty]
  simp [List.find?]

def exDbC8 : Db := ⟨[], [], [], [], [], [], [], []⟩

theorem signup_first_user_forced_admin_witness :
    ∃ u : UserRec, (signup exDbC8 ⟨"alice", "pw", false⟩ "u1").1 = .ok u ∧
      u.is_admin = true :=
  signup_first_user_forced_admin exDbC8 ⟨"alice", "pw", false⟩ "u1" rfl

/-- C10: on a non-empty user store, an unauthenticated signup whose body sets
`admin = true` and whose username is fresh inserts a record with
`is_admin = true` — the requested flag is honored with no authorization
check, so any caller can self-grant admin. -/
theorem signup_self_grant_admin (db : Db) (req : UserCreate) (freshId : OID)
    (hne : db.users ≠ [])
    (hfresh : db.users.find? (fun u => u.username == req.username) = none)
    (hadmin : req.admin = true) :
    ∃ u : UserRec, signup db req freshId =
      (.ok u, { db with users := db.users ++ [u] }) ∧ u.is_admin = true := by
  refine ⟨⟨freshId, req.username, get_password_hash req.password,
    (db.users.length == 0) || req.admin⟩, ?_, by rw [hadmin]; simp⟩
  unfold signup
  rw [hfresh]

def exDbC10 : Db := ⟨[⟨"u1", "bob", "h", true⟩], [], [], [], [], [], [], []⟩

theorem signup_self_grant_admin_witness :
    ∃ u : UserRec, signup exDbC10 ⟨"eve", "pw", true⟩ "u2" =
      (.ok u, { exDbC10 with users := exDbC10.users ++ [u] }) ∧ u.is_admin = true :=
  signup_self_grant_admin exDbC10 ⟨"eve", "pw", true⟩ "u2" (by decide)
    (by decide) rfl

/-- src/routes.py `enroll_course` (lines 174-196): course lookup (404),
duplicate-pair check (400, raised before insert), then insert of the one
enrollment record. -/
def enroll_course (db : Db) (course_id : OID) (u : UserRec) :
    Except HTTPException EnrollmentRec × Db :=
  match db.courses.find? (fun c => c.id == course_id) with
  | none => (.error ⟨404, "Course not found"⟩, db)
  | some _ =>
    match db.enrollments.find? (fun e => e.user_id == u.id && e.course_id == course_id) with
    | some _ => (.error ⟨400, "Already enrolled in this course"⟩, db)
    | none =>
      let enr : EnrollmentRec := ⟨u.id, course_id⟩
      (.ok enr, { db with enrollments := db.enrollments ++ [enr] })

/-- src/routes.py `complete_lesson` (lines 337-360): lesson lookup (404),
duplicate-pair check (400, raised before insert), then insert of the one
completion record carrying the current UTC timestamp. -/
def complete_lesson (db : Db) (lesson_id : OID) (u : UserRec) (now : Nat) :
    Except HTTPException CompletionRec × Db :=
  match db.lessons.find? (fun l => l.id == lesson_id) with
  | none => (.error ⟨404, "Lesson not found"⟩, db)
  | some _ =>
    match db.lesson_completions.find? (fun c => c.user_id == u.id && c.lesson_id == lesson_id) with
    | some _ => (.error ⟨400, "Lesson already marked as completed"⟩, db)
    | none =>
      let comp : CompletionRec := ⟨u.id, lesson_id, now⟩
      (.ok comp, { db with lesson_completions := db.lesson_completions ++ [comp] })

theorem find?_append_singleton {α : Type} (l : List α) (p : α → Bool) (e : α)
    (hl : l.find? p = none) (he : p e = true) : (l ++ [e]).find? p = some e := by
  induction l with
  | nil => simp [List.find?_cons, he]
  | cons x xs ih =>
    have hx : p x = false := by
      cases hpx : p x with
      | true => rw [List.find?_cons_of_pos _ hpx] at hl; cases hl
      | false => rfl
    rw [List.find?_cons_of_neg _ (by simp [hx])] at hl
    rw [List.cons_append, List.find?_cons_of_neg _ (by simp [hx])]
    exact ih hl

/-- C7: with the course present, enroll fails Conflict-400 and leaves the
store unchanged when the (user, course) enrollment already exists, and
otherwise appends exactly that one enrollment, after which the identical
call fails Conflict-400; analogously, with the lesson present,
complete-lesson fails Conflict-400 on an existing (user, lesson) completion
and otherwise appends exactly one completion stamped with the current time,
after which the identical call (at any later time) fails Conflict-400. -/
theorem enroll_and_complete_conflict (db : Db) (course_id : OID)
    (lesson_id : OID) (u : UserRec) (now now₂ : Nat) :
    ((db.courses.find? (fun c => c.id == course_id)).isSome = true →
      (db.enrollments.find? (fun e => e.user_id == u.id && e.course_id == course_id)).isSome = true →
      enroll_course db course_id u = (.error ⟨400, "Already enrolled in this course"⟩, db)) ∧
    ((db.courses.find? (fun c => c.id == course_id)).isSome = true →
      db.enrollments.find? (fun e => e.user_id == u.id && e.course_id == course_id) = none →
      enroll_course db course_id u =
        (.ok ⟨u.id, course_id⟩,
          { db with enrollments := db.enrollments ++ [⟨u.id, course_id⟩] }) ∧
      (enroll_course (enroll_course db course_id u).2 course_id u).1 =
        .error ⟨400, "Already enrolled in this course"⟩) ∧
    ((db.lessons.find? (fun l => l.id == lesson_id)).isSome = true →
      (db.lesson_completions.find? (fun c => c.user_id == u.id && c.lesson_id == lesson_id)).isSome = true →
      complete_lesson db lesson_id u now = (.error ⟨400, "Lesson already marked as completed"⟩, db)) ∧
    ((db.lessons.find? (fun l => l.id == lesson_id)).isSome = true →
      db.lesson_completions.find? (fun c => c.user_id == u.id && c.lesson_id == lesson_id) = none →
      complete_lesson db lesson_id u now =
        (.ok ⟨u.id, lesson_id, now⟩,
          { db with lesson_completions := db.lesson_completions ++ [⟨u.id, lesson_id, now⟩] }) ∧
      (complete_lesson (complete_lesson db lesson_id u now).2 lesson_id u now₂).1 =
        .error ⟨400, "Lesson already marked as completed"⟩) := by
  refine ⟨?_, ?_, ?_, ?_⟩
  · intro hc he
    obtain ⟨c, hcs⟩ := Option.isSome_iff_exists.mp hc
    obtain ⟨e, hes⟩ := Option.isSome_iff_exists.mp he
    unfold enroll_course
    rw [hcs, hes]
  · intro hc hnone
    obtain ⟨c, hcs⟩ := Option.isSome_iff_exists.mp hc
    have h1 : enroll_course db course_id u =
        (.ok ⟨u.id, course_id⟩,
          { db with enrollments := db.enrollments ++ [⟨u.id, course_id⟩] }) := by
      unfold enroll_course
      rw [hcs, hnone]
    refine ⟨h1, ?_⟩
    rw [h1]
    unfold enroll_course
    rw [show (({ db with enrollments := db.enrollments ++ [⟨u.id, course_id⟩] } : Db).courses.find?
        (fun c => c.id == course_id)) = some c from hcs]
    rw [show (({ db with enrollments := db.enrollments ++ [⟨u.id, course_id⟩] } : Db).enrollments.find?
        (fun e => e.user_id == u.id && e.course_id == course_id)) =
        some ⟨u.id, course_id⟩ from
      find?_append_singleton db.enrollments _ ⟨u.id, course_id⟩ hnone (by simp)]
  · intro hl he
    obtain ⟨l, hls⟩ := Option.isSome_iff_exists.mp hl
    obtain ⟨e, hes⟩ := Option.isSome_iff_exists.mp he
    unfold complete_lesson
    rw [hls, hes]
  · intro hl hnone
    obtain ⟨l, hls⟩ := Option.isSome_iff_exists.mp hl
    have h1 : complete_lesson db lesson_id u now =
        (.ok ⟨u.id, lesson_id, now⟩,
          { db with lesson_completions := db.lesson_completions ++ [⟨u.id, lesson_id, now⟩] }) := by
      unfold complete_lesson
      rw [hls, hnone]
    refine ⟨h1, ?_⟩
    rw [h1]
    unfold complete_lesson
    rw [show (({ db with lesson_completions := db.lesson_completions ++ [⟨u.id, lesson_id, now⟩] } : Db).lessons.find?
        (fun l => l.id == lesson_id)) = some l from hls]
    rw [show (({ db with lesson_completions := db.lesson_completions ++ [⟨u.id, lesson_id, now⟩] } : Db).lesson_completions.find?
        (fun c => c.user_id == u.id && c.lesson_id == lesson_id)) =
        some ⟨u.id, lesson_id, now⟩ from
      find?_append_singleton db.lesson_completions _ ⟨u.id, lesson_id, now⟩ hnone (by simp)]

def exUserC7 : UserRec := ⟨"u1", "alice", "h", false⟩

def exDbC7 : Db where
  users := [exUserC7]
  courses := [⟨"c1", "Course", "Bob", 10, some "u1"⟩]
  enrollments := []
  lessons := [⟨"l1", "L1", "c1"⟩]
  quizzes := []
  questions := []
  lesson_completions := []
  quiz_attempts := []

theorem enroll_and_complete_conflict_witness :
    (enroll_course exDbC7 "c1" exUserC7 =
      (.ok ⟨"u1", "c1"⟩,
        { exDbC7 with enrollments := exDbC7.enrollments ++ [⟨"u1", "c1"⟩] }) ∧
     (enroll_course (enroll_course exDbC7 "c1" exUserC7).2 "c1" exUserC7).1 =
       .error ⟨400, "Already enrolled in this course"⟩) ∧
    (complete_lesson exDbC7 "l1" exUserC7 5 =
      (.ok ⟨"u1", "l1", 5⟩,
        { exDbC7 with lesson_completions := exDbC7.lesson_completions ++ [⟨"u1", "l1", 5⟩] }) ∧
     (complete_lesson (complete_lesson exDbC7 "l1" exUserC7 5).2 "l1" exUserC7 9).1 =
       .error ⟨400, "Lesson already marked as completed"⟩) := by
  have h := enroll_and_complete_conflict exDbC7 "c1" "l1" exUserC7 5 9
  exact ⟨h.2.1 (by decide) (by decide), h.2.2.2 (by decide) (by decide)⟩

/-- Outcome of the course-creator check. `invalidIdFault` is the
`bson.errors.InvalidId` raised by `ObjectId(course_id)` at src/routes.py
line 29: `get_course_creator_user` and its callers catch nothing, so it
escapes as an unhandled exception (surfaced as a 500), not as an
`HTTPException`. -/
inductive CreatorCheck where
  | ok : CreatorCheck
  | httpError (status_code : Nat) (detail : String) : CreatorCheck
  | invalidIdFault : CreatorCheck
deriving Repr, DecidableEq

/-- src/routes.py `get_course_creator_user` (lines 28-40): construct the
ObjectId (raising on an invalid string), look the course up (404), treat a
missing-or-null `created_by` as the legacy 403, compare the creator to the
caller (403 on mismatch), and succeed otherwise. -/
def get_course_creator_user (db : Db) (course_id : String) (current_user : UserRec) :
    CreatorCheck :=
  if objectIdIsValid course_id = false then .invalidIdFault
  else
    match db.courses.find? (fun c => c.id == course_id) with
    | none => .httpError 404 "Course not found"
    | some course =>
      match course.created_by with
      | none => .httpError 403
          "This course was created before ownership tracking was implemented. Only admins can modify it."
      | some creator =>
        if creator == current_user.id then .ok
        else .httpError 403 "Only the course creator can modify this course"

def exAdminC4 : UserRec := ⟨"aaaaaaaaaaaaaaaaaaaaaaaa", "root", "h", true⟩

def exDbC4 : Db :=
  ⟨[exAdminC4],
   [⟨"bbbbbbbbbbbbbbbbbbbbbbbb", "Course", "Bob", 10, some "aaaaaaaaaaaaaaaaaaaaaaaa"⟩],
   [], [], [], [], [], []⟩

/-- C4 counterexample: on a syntactically invalid course id the check does
not fail with NotFound 404 as claimed — `ObjectId(course_id)` raises an
uncaught `InvalidId` (an unhandled 500-class fault), a distinct outcome from
any `HTTPException`. -/
theorem creator_check_invalid_id_counterexample :
    get_course_creator_user exDbC4 "not-a-valid-objectid" exAdminC4 =
      CreatorCheck.invalidIdFault ∧
    CreatorCheck.invalidIdFault ≠ CreatorCheck.httpError 404 "Course not found" := by
  constructor
  · decide
  · decide

/-- C4 amended: a syntactically invalid course id makes the check raise an
uncaught invalid-id exception (not a 404); a well-formed id with no course
record fails NotFound 404; an absent creator reference fails 403 with the
legacy predates-ownership message; a present creator reference differing
from the caller fails 403 with the not-the-owner message; and the check
succeeds exactly when the caller is the creator. -/
theorem get_course_creator_user_cases (db : Db) (course_id : String) (u : UserRec) :
    (objectIdIsValid course_id = false →
      get_course_creator_user db course_id u = .invalidIdFault) ∧
    (objectIdIsValid course_id = true →
      db.courses.find? (fun c => c.id == course_id) = none →
      get_course_creator_user db course_id u = .httpError 404 "Course not found") ∧
    (∀ course : CourseRec, objectIdIsValid course_id = true →
      db.courses.find? (fun c => c.id == course_id) = some course →
      course.created_by = none →
      get_course_creator_user db course_id u = .httpError 403
        "This course was created before ownership tracking was implemented. Only admins can modify it.") ∧
    (∀ (course : CourseRec) (creator : OID), objectIdIsValid course_id = true →
      db.courses.find? (fun c => c.id == course_id) = some course →
      course.created_by = some creator → creator ≠ u.id →
      get_course_creator_user db course_id u = .httpError 403
        "Only the course creator can modify this course") ∧
    (∀ (course : CourseRec) (creator : OID), objectIdIsValid course_id = true →
      db.courses.find? (fun c => c.id == course_id) = some course →
      course.created_by = some creator → creator = u.id →
      get_course_creator_user db course_id u = .ok) := by
  refine ⟨?_, ?_, ?_, ?_, ?_⟩
  · intro h
    unfold get_course_creator_user
    rw [if_pos h]
  · intro hv hn
    unfold get_course_creator_user
    rw [if_neg (by simp [hv]), hn]
  · intro course hv hf hcb
    simp [get_course_creator_user, hv, hf, hcb]
  · intro course creator hv hf hcb hneq
    simp [get_course_creator_user, hv, hf, hcb, hneq]
  · intro course creator hv hf hcb heq
    simp [get_course_creator_user, hv, hf, hcb, heq]

theorem get_course_creator_user_cases_witness :
    get_course_creator_user exDbC4 "bbbbbbbbbbbbbbbbbbbbbbbb" exAdminC4 =
      CreatorCheck.ok := by
  have h := get_course_creator_user_cases exDbC4 "bbbbbbbbbbbbbbbbbbbbbbbb" exAdminC4
  exact h.2.2.2.2
    ⟨"bbbbbbbbbbbbbbbbbbbbbbbb", "Course", "Bob", 10, some "aaaaaaaaaaaaaaaaaaaaaaaa"⟩
    "aaaaaaaaaaaaaaaaaaaaaaaa" (by decide) (by decide) rfl rfl

/-- The specification's set-membership reading of `quizzes_attempted`: the
number of distinct quizzes of the course on which the user has at least one
attempt record. -/
def distinctQuizzesAttempted (db : Db) (course_id : OID) (u : UserRec) : Nat :=
  ((db.quizzes.filter (fun q => q.course_id == course_id)).filter
    (fun q => db.quiz_attempts.any (fun a => a.user_id == u.id && a.quiz_id == q.id))).length

/-- Independent record-count formulation of what the code computes: the
number of the user's attempt records whose quiz belongs to the course, each
record counting once. -/
def userAttemptRecordsOnCourse (db : Db) (course_id : OID) (u : UserRec) : Nat :=
  (db.quiz_attempts.filter (fun a => a.user_id == u.id &&
    db.quizzes.any (fun q => q.course_id == course_id && q.id == a.quiz_id))).length

theorem contains_map_filter_eq_any (qs : List QuizRec) (course_id x : OID) :
    ((qs.filter (fun q => q.course_id == course_id)).map (fun q => q.id)).contains x =
      qs.any (fun q => q.course_id == course_id && q.id == x) := by
  rw [Bool.eq_iff_iff]
  simp only [List.contains, List.elem_iff, List.mem_map, List.mem_filter,
    List.any_eq_true, Bool.and_eq_true_iff, beq_iff_eq]
  constructor
  · rintro ⟨q, ⟨hmem, hcid⟩, hid⟩
    exact ⟨q, hmem, hcid, hid⟩
  · rintro ⟨q, hmem, hcid, hid⟩
    exact ⟨q, ⟨hmem, hcid⟩, hid⟩

def exUserC2 : UserRec := ⟨"u1", "alice", "h", false⟩

def exDbC2 : Db where
  users := [exUserC2]
  courses := [⟨"c1", "Course", "Bob", 10, some "u1"⟩]
  enrollments := []
  lessons := []
  quizzes := [⟨"q1", "Quiz", "c1"⟩]
  questions := []
  lesson_completions := []
  quiz_attempts := [⟨"u1", "q1", [0], 1, 1⟩, ⟨"u1", "q1", [1], 0, 2⟩]

/-- C2 counterexample: a user with two attempt records on the single quiz of
a course gets `quizzes_attempted = 2` from the code (it counts attempt
records), while the distinct-quiz set-membership count the claim describes
is 1. -/
theorem quizzes_attempted_counterexample :
    (get_course_progress exDbC2 "c1" exUserC2).quizzes_attempted = 2 ∧
    distinctQuizzesAttempted exDbC2 "c1" exUserC2 = 1 := by
  exact ⟨rfl, rfl⟩

/-- C2 amended: for every user and course, `quizzes_attempted` equals the
number of the user's attempt records on the course's quizzes — each record
counts once, so repeat attempts by the same user on the same quiz each
increment it (attempt-count, not set-membership). Unconditional: it holds in
particular for stores with several attempts per quiz, where it differs from
the distinct-quiz count refuted by the counterexample. -/
theorem quizzes_attempted_spec (db : Db) (course_id : OID) (u : UserRec) :
    (get_course_progress db course_id u).quizzes_attempted =
      userAttemptRecordsOnCourse db course_id u := by
  show (db.quiz_attempts.filter (fun a => a.user_id == u.id &&
      ((db.quizzes.filter (fun q => q.course_id == course_id)).map (fun q => q.id)).contains a.quiz_id)).length =
    userAttemptRecordsOnCourse db course_id u
  unfold userAttemptRecordsOnCourse
  congr 1
  apply List.filter_congr
  intro a _
  rw [contains_map_filter_eq_any]
